import Mathlib

/-!
Shallow embedding of the `user_pinger` bot (file `user_pinger.py`, class
`UserPinger`) and verification of the specified properties.

Modelling conventions:
* A `ConfigParser` document (the group registry and the config flags) is a
  list of sections, each a section name paired with the ordered list of its
  option names (option values are unused by the program, and `optionxform`
  is the identity in the source, so option names keep their case).
* Python string operations (`upper`, `lower`, `split`, `replace`, slicing)
  are embedded as structurally recursive functions over the character list
  of a string, matching CPython's semantics on the operations the program
  uses, so that every definition evaluates inside the kernel.
* Python exceptions are modelled with `Except PyErr`; an uncaught exception
  at a call site that references an undefined name (`self.in_groups`,
  `MAX_PINGS_PER_COMMENT`, `valid_group`, ...) is modelled by the
  corresponding `PyErr` value at exactly the program point where CPython
  would raise it.
* `collections.deque` with `maxlen` is modelled by a list together with the
  bounded append `dequeAppend`.
-/

namespace UserPinger

/-- Python runtime errors that the embedded code can raise. -/
inductive PyErr where
  | noSectionError
  | attributeError
  | nameError
  | unboundLocalError
  | keyError
  | indexError
  | typeError
  | unpicklingError
  | redditAPIException
  deriving DecidableEq, Repr

/-- A `ConfigParser` document: sections with their ordered option names
(option values are unused by the program). -/
abbrev Registry := List (String × List String)

/-! ### Python string primitives -/

/-- Python `str.upper()` (ASCII case mapping, which is all the program
relies on). -/
def pyUpper (s : String) : String := (s.toList.map Char.toUpper).asString

/-- Python `str.lower()`. -/
def pyLower (s : String) : String := (s.toList.map Char.toLower).asString

/-- Split a character list at every character satisfying `p`, keeping empty
pieces. -/
def splitPred (p : Char → Bool) : List Char → List (List Char)
  | [] => [[]]
  | c :: cs =>
      if p c then
        [] :: splitPred p cs
      else
        match splitPred p cs with
        | [] => [[c]]
        | piece :: rest => (c :: piece) :: rest

/-- Python `str.split()` with no argument: split on whitespace runs,
discarding empty pieces. -/
def pySplit (s : String) : List String :=
  ((splitPred Char.isWhitespace s.toList).filter (fun piece => piece ≠ [])).map List.asString

/-- Python `str.split(sep)` for a single-character separator (the program
only ever splits on `"+"`): split at every occurrence, keeping empty
pieces. -/
def pySplitOnChar (sep : Char) (s : String) : List String :=
  (splitPred (fun c => c = sep) s.toList).map List.asString

/-- Left-to-right non-overlapping replacement of `pat` by `rep`, with fuel
for structural termination (one unit of fuel per consumed character). -/
def replaceAux (pat rep : List Char) : Nat → List Char → List Char
  | _, [] => []
  | 0, l => l
  | fuel + 1, c :: cs =>
      if pat ≠ [] ∧ (c :: cs).take pat.length = pat then
        rep ++ replaceAux pat rep fuel ((c :: cs).drop pat.length)
      else
        c :: replaceAux pat rep fuel cs

/-- Python `str.replace(pat, rep)` (for nonempty `pat`). -/
def pyReplace (s pat rep : String) : String :=
  (replaceAux pat.toList rep.toList s.toList.length s.toList).asString

/-- Python truthiness of a string: nonempty strings are truthy. -/
def pyStrTruthy (s : String) : Bool := s ≠ ""

/-! ### Dedup cache (`self.parsed`, a `Deque[str]` with `maxlen=10000`) -/

/-- `collections.deque.append` with a `maxlen` bound: when the deque is
full, the oldest (leftmost) element is discarded before the new element is
appended on the right.  `handle_comment` appends `str(comment)` to
`self.parsed`, a deque with `maxlen=10000`. -/
def dequeAppend (cap : Nat) (q : List α) (x : α) : List α :=
  if q.length = cap then q.tail ++ [x] else q ++ [x]

/-- The deque capacity fixed by `load` (`maxlen=10000`). -/
def PARSED_MAXLEN : Nat := 10000

/-! ### Dedup persistence (`load`, lines 65-85) -/

/-- Outcome of `open("parsed.pkl")` followed by `pickle.loads` on the file
contents, per CPython semantics: a missing file raises `FileNotFoundError`,
an empty file makes `pickle.loads` raise `EOFError`, unparseable contents
make it raise `pickle.UnpicklingError`, and otherwise the pickled deque
(its `maxlen` and its items) is returned. -/
inductive PickleFile where
  | absent
  | emptyFile
  | corrupt
  | valid (maxlen : Nat) (items : List String)
  deriving DecidableEq, Repr

/-- `load` (lines 65-85): returns the deque contents paired with the deque
`maxlen`.  `except EOFError` and `except FileNotFoundError` return an empty
deque with `maxlen=10000`; a deque whose `maxlen` differs from 10000 is
rebuilt as `Deque(parsed, maxlen=10000)`, which keeps the last 10000 items.
No other exception is caught, so `pickle.UnpicklingError` from corrupt
contents propagates to the caller. -/
def load (file : PickleFile) : Except PyErr (List String × Nat) :=
  match file with
  | .absent => .ok ([], 10000)
  | .emptyFile => .ok ([], 10000)
  | .corrupt => .error .unpicklingError
  | .valid maxlen items =>
      if maxlen ≠ 10000 then
        .ok (items.drop (items.length - 10000), 10000)
      else
        .ok (items, maxlen)

/-! ### Group-name validation (`_validate_group_name`, lines 96-100) -/

/-- `GROUP_ALLOWED_CHARS = string.ascii_uppercase + string.digits + '-' + '+'`. -/
def GROUP_ALLOWED_CHARS : String :=
  "ABCDEFGHIJKLMNOPQRSTUVWXYZ" ++ "0123456789" ++ "-" ++ "+"

/-- `_validate_group_name` (lines 96-100): fails iff some character of the
name is outside `GROUP_ALLOWED_CHARS` (`set(group_name) - set(...)`
nonempty), with the message naming the group and the allowed set. -/
def validate_group_name (group_name : String) : Bool × Option String :=
  if group_name.toList.any (fun c => !(GROUP_ALLOWED_CHARS.toList.contains c)) then
    (false, some ("Group name " ++ group_name ++ " must only use " ++ GROUP_ALLOWED_CHARS))
  else
    (true, none)

/-! ### Trigger parsing (`handle_comment`, lines 229-267) -/

/-- The token-collection loop of `handle_comment` (lines 233-241): for each
element equal to `"!PING"`, append the split-on-`"+"` of the immediately
following element; a trailing `"!PING"` with no following element breaks
out of the loop. -/
def collectTokens : List String → List String
  | [] => []
  | [_] => []
  | value :: next :: rest =>
      (if value = "!PING" then pySplitOnChar '+' next else []) ++ collectTokens (next :: rest)

/-- `handle_comment` token extraction:
`split = comment.body.upper().split()` followed by the collection loop. -/
def commentTokens (body : String) : List String :=
  collectTokens (pySplit (pyUpper body))

/-- The remainder of `handle_comment` after token collection (lines
242-267): with no tokens it returns; otherwise the validation loop
`for iterate_through_pings in range(MAX_PINGS_PER_COMMENT)` raises
`NameError` at once, because `MAX_PINGS_PER_COMMENT` is a class attribute
referenced without `self.` (and its body would in turn subscript the
unsubscriptable `map` object `triggers` and test the undefined name
`is_valid_group`). -/
def handle_comment (body : String) : Except PyErr (List String) :=
  let tokens := commentTokens body
  if tokens = [] then .ok [] else .error .nameError

/-! ### Registry queries -/

/-- `group_exists` (lines 198-200): `groups.has_section(request.upper())`. -/
def group_exists (request : String) (groups : Registry) : Bool :=
  groups.any (fun sec => sec.1 = pyUpper request)

/-- `get_group_members` (lines 206-208): `groups.options(request.upper())`;
`ConfigParser.options` raises `NoSectionError` when the section is absent
(this version of the method, unlike the superseded one, does not catch it). -/
def get_group_members (request : String) (groups : Registry) : Except PyErr (List String) :=
  match groups.find? (fun sec => sec.1 = pyUpper request) with
  | some sec => .ok sec.2
  | none => .error .noSectionError

/-- `in_group` (lines 202-204): case-insensitive membership of the author
in a list of user names. -/
def in_group (author : String) (users : List String) : Bool :=
  (users.map pyLower).contains (pyLower author)

/-- `public_group` (lines 210-212):
`group.lower() in self.config.options("public")`. -/
def public_group (group : String) (publicOpts : List String) : Bool :=
  publicOpts.contains (pyLower group)

/-- `protected_group` (lines 214-216):
`group.lower() in self.config.options("protected")`. -/
def protected_group (group : String) (protectedOpts : List String) : Bool :=
  protectedOpts.contains (pyLower group)

/-- `ConfigParser.set(section, option, None)` on an existing section:
option names are a dictionary, so setting an existing option keeps its
position and setting a new one appends it. -/
def configSet (registry : Registry) (sectionName option : String) : Registry :=
  registry.map (fun sec =>
    if sec.1 = sectionName then
      (sec.1, if sec.2.contains option then sec.2 else sec.2 ++ [option])
    else sec)

/-! ### Ping resolution (`handle_ping`, lines 269-313) -/

/-- Accumulator of the classification loop in `handle_ping` (lines 283-297). -/
structure ResolveState where
  invalid_groups : List String
  nonmember_groups : List String
  existant_groups : List String
  users : List String
  deriving DecidableEq, Repr

/-- One iteration of the classification loop in `handle_ping` (lines
287-297).  Faithful to the source order: `members` is computed by
`get_group_members` *before* the existence check, so a nonexistent group
raises `NoSectionError` at line 288; and the authorization test at line 292
reads the attribute `self.in_groups`, which does not exist (the method is
named `in_group`), so reaching that test raises `AttributeError`.
`invalid_groups += group` extends the list with the *characters* of the
group name (Python `list += str`). -/
def resolveStep (registry : Registry) (st : ResolveState) (group : String) :
    Except PyErr ResolveState := do
  let _members ← get_group_members group registry
  if group_exists group registry = false then
    .ok { st with
          invalid_groups := st.invalid_groups ++ group.toList.map (fun c => String.singleton c) }
  else
    .error .attributeError

/-- The classification loop of `handle_ping` over the requested groups. -/
def handle_ping_resolve (registry : Registry) (groups : List String) :
    Except PyErr ResolveState :=
  groups.foldlM (resolveStep registry)
    { invalid_groups := [], nonmember_groups := [], existant_groups := [], users := [] }

/-! ### Notification loop (`ping_users`, lines 315-394) -/

/-- The account-cleanup condition of the
`except praw.exceptions.APIException` handler in `ping_users` (line 377):
`if "USER_DOESNT_EXIST" or "INVALID_USER" in error_types:` — Python parses
this as `bool("USER_DOESNT_EXIST") or ("INVALID_USER" in error_types)`. -/
def shouldRemoveUser (error_types : List String) : Bool :=
  pyStrTruthy "USER_DOESNT_EXIST" || error_types.contains "INVALID_USER"

/-! ### The `addtogroup` command (`add_to_group`, lines 463-506) -/

/-- Group-list argument splitting of `add_to_group` (line 472):
`body.replace(", ", "+").replace(",", "+").split("+")`. -/
def splitGroupsArg (body : String) : List String :=
  pySplitOnChar '+' (pyReplace (pyReplace body ", " "+") "," "+")

/-- The wiki revision reason computed at line 500:
`group.replace('🔮', '[Crystal Ball]').encode('ascii', 'ignore').decode('utf-8')`
(the ascii-ignore encode drops every non-ASCII character). -/
def revisionReason (group : String) : String :=
  ((pyReplace group "🔮" "[Crystal Ball]").toList.filter (fun c => c.toNat < 128)).asString

/-- Result of a run of `add_to_group`: the final in-memory registry, the
sequence of wiki writes performed (each with the written document and the
revision reason), the accumulated (never sent) error message, and the
uncaught exception, if any, raised after the writes. -/
structure AddResult where
  registry : Registry
  writes : List (Registry × String)
  errorMessage : String
  error : Option PyErr
  deriving DecidableEq, Repr

/-- `add_to_group` (lines 463-506).  First loop (lines 483-495): a group
that does not exist, or one for which `self.protected_group(body)` holds
(note: the source tests the whole `body`, not the current `group`),
contributes to `error_message` and is not added to `valid_groups`;
otherwise `group.upper()` is appended to `valid_groups`.  Second loop
(lines 496-501): for each valid group, `list_of_all_groups.set(group,
str(author), None)` followed by a wiki write whose reason is
`f"Added /u/T_AUTHOR to Group T_REASON"`.  The confirmation-PM stage (lines
502-505) references the undefined name `valid_group`, so it raises
`NameError` whenever `valid_groups` is nonempty. -/
def add_to_group (body author : String) (registry : Registry)
    (protectedOpts : List String) : AddResult :=
  let groups_to_add := splitGroupsArg body
  let classify := groups_to_add.foldl (fun (acc : String × List String) group =>
    if group_exists group registry = false then
      (acc.1 ++ "* The group \"" ++ group ++ "\" does not exist.\n\n", acc.2)
    else if protected_group body protectedOpts then
      (acc.1 ++ "* You attempted to add yourself to protected group " ++ group ++ ".\n\n", acc.2)
    else
      (acc.1, acc.2 ++ [pyUpper group])) ("", [])
  let valid_groups := classify.2
  let writeLoop := valid_groups.foldl (fun (acc : Registry × List (Registry × String)) group =>
    let written := configSet acc.1 group author
    (written, acc.2 ++ [(written, "Added /u/" ++ author ++ " to Group " ++ revisionReason group)]))
    (registry, [])
  { registry := writeLoop.1
    writes := writeLoop.2
    errorMessage := classify.1
    error := if valid_groups.length = 0 then none else some .nameError }

/-! ### Command dispatch (`handle_command`, lines 396-430, and
`run_command`, lines 774-798) -/

/-- The keys of the hardcoded `public_commands` handler table in
`run_command` (lines 774-777). -/
def publicCommandKeys : List String := ["addtogroup", "unsubscribe"]

/-- The keys of the hardcoded `mod_commands` handler table in
`run_command` (lines 779-791). -/
def modCommandKeys : List String :=
  ["removefromgroup", "list", "help", "protectgroup", "unprotectgroup",
   "makepublicgroup", "makeprivategroup", "creategroup", "deletegroup",
   "addusertogroup", "removeuserfromgroup"]

/-- Observable outcome of `handle_command`: an "invalid command" error PM,
a "mod-only command" error PM, or execution of the named handler with the
trailing data. -/
inductive DispatchOutcome where
  | invalidReply (command : String)
  | modOnlyReply (command : String)
  | exec (command data : String)
  deriving DecidableEq, Repr

/-- `handle_command` (lines 396-430) followed by `run_command` (lines
774-798).  `publicTier` and `modTier` are the option names of the config
wiki sections `commands` and `mod_commands` (lines 411-412).  The command
is the first word of the lowercased body (an empty body raises
`IndexError` at `words[0]`); membership gating uses the config tiers, but
`run_command` then looks the command up in the *hardcoded* handler tables,
raising `KeyError` when it is absent there (`public_commands[command]`, or
the merged table for moderators). -/
def handle_command (publicTier modTier : List String) (isMod : Bool)
    (body : String) : Except PyErr DispatchOutcome :=
  match pySplit (pyLower body) with
  | [] => .error .indexError
  | command :: rest =>
    let data := String.intercalate " " rest
    let all_commands := publicTier ++ modTier
    if all_commands.contains command then
      if modTier.contains command && !isMod then
        .ok (.modOnlyReply command)
      else
        if isMod then
          if (publicCommandKeys ++ modCommandKeys).contains command then
            .ok (.exec command data)
          else .error .keyError
        else
          if publicCommandKeys.contains command then
            .ok (.exec command data)
          else .error .keyError
    else
      .ok (.invalidReply command)

/-! ### Private-message sending (`_send_pm`, lines 151-159) -/

/-- What kind of exception, if any, `author.message(...)` raises. -/
inductive SendRaise where
  | noRaise
  | redditAPI
  | other
  deriving DecidableEq, Repr

/-- The subject/message pair passed to `author.message` and whether the
send went through (`false` means the `RedditAPIException` was caught and
logged). -/
structure SendAttempt where
  subject : String
  message : String
  delivered : Bool
  deriving DecidableEq, Repr

/-- `_send_pm` (lines 151-159): truncates the subject and the joined body
to 240 characters (`subject[:240]`, `"\n\n".join(body)[:240]`), catches
`praw.exceptions.RedditAPIException` and logs it; any other exception
propagates. -/
def send_pm (subject : String) (body : List String) (raised : SendRaise) :
    Except PyErr SendAttempt :=
  let attempt : SendAttempt :=
    { subject := subject.take 240
      message := (String.intercalate "\n\n" body).take 240
      delivered := true }
  match raised with
  | .noRaise => .ok attempt
  | .redditAPI => .ok { attempt with delivered := false }
  | .other => .error .typeError

end UserPinger

deriving instance DecidableEq for Except

namespace UserPinger

/-! ## Helper lemmas for the dedup cache -/

/-- A bounded append keeps the deque within its capacity. -/
theorem dequeAppend_length_le {α : Type} (cap : Nat) (hcap : 1 ≤ cap)
    (q : List α) (x : α) (h : q.length ≤ cap) :
    (dequeAppend cap q x).length ≤ cap := by
  unfold dequeAppend
  by_cases hq : q.length = cap
  · rw [if_pos hq]
    cases q with
    | nil => simp at hq; omega
    | cons a as =>
        simp only [List.tail_cons, List.length_append, List.length_singleton]
        simp at hq
        omega
  · rw [if_neg hq]
    simp only [List.length_append, List.length_singleton]
    omega

/-- Folding bounded appends over a start deque within capacity yields the
last `cap` elements of the concatenation: the deque is a sliding window in
insertion (FIFO) order. -/
theorem foldl_dequeAppend_eq_drop {α : Type} (cap : Nat) (hcap : 1 ≤ cap) :
    ∀ (ids q : List α), q.length ≤ cap →
      List.foldl (dequeAppend cap) q ids = (q ++ ids).drop (q.length + ids.length - cap) := by
  intro ids
  induction ids with
  | nil =>
      intro q hq
      have hz : q.length - cap = 0 := by omega
      simp [hz]
  | cons x xs ih =>
      intro q hq
      rw [List.foldl_cons, ih (dequeAppend cap q x) (dequeAppend_length_le cap hcap q x hq)]
      by_cases hfull : q.length = cap
      · cases q with
        | nil => simp at hfull; omega
        | cons a as =>
            have has : as.length + 1 = cap := by simpa using hfull
            have hstep : dequeAppend cap (a :: as) x = as ++ [x] := by
              simp [dequeAppend, hfull]
            rw [hstep]
            have h2 : (as ++ [x]).length + xs.length - cap = xs.length := by
              simp; omega
            have h3 : (a :: as).length + (x :: xs).length - cap = xs.length + 1 := by
              simp; omega
            rw [h2, h3]
            have h1 : (as ++ [x]) ++ xs = as ++ x :: xs := by simp
            have h4 : (a :: as) ++ x :: xs = a :: (as ++ x :: xs) := by simp
            rw [h1, h4, List.drop_succ_cons]
      · have hlt : q.length < cap := Nat.lt_of_le_of_ne hq hfull
        have hstep : dequeAppend cap q x = q ++ [x] := by
          simp [dequeAppend, hfull]
        rw [hstep]
        have h1 : (q ++ [x]) ++ xs = q ++ x :: xs := by simp
        have h2 : (q ++ [x]).length + xs.length - cap = q.length + (x :: xs).length - cap := by
          simp; omega
        rw [h1, h2]

/-- Boolean `List.contains` agrees with propositional membership. -/
theorem contains_iff_mem {α : Type} [BEq α] [LawfulBEq α] (l : List α) (a : α) :
    l.contains a = true ↔ a ∈ l := by
  constructor
  · intro h
    exact of_decide_eq_true ((List.elem_eq_mem a l) ▸ h)
  · intro h
    rw [show l.contains a = decide (a ∈ l) from List.elem_eq_mem a l]
    exact decide_eq_true h

/-- Boolean `List.contains` is false exactly on non-members. -/
theorem contains_eq_false_of_not_mem {α : Type} [BEq α] [LawfulBEq α]
    {l : List α} {a : α} (h : a ∉ l) : l.contains a = false := by
  rcases Bool.eq_false_or_eq_true (l.contains a) with hf | ht
  · exact absurd ((contains_iff_mem l a).mp hf) h
  · exact ht

/-! ## Claim theorems -/

/-- C1: the claim states that a ping is authorized iff the requester is a
member (case-insensitively), the group is public, or the requester is a
moderator, and that an unauthorized ping yields zero notifications plus an
error reply with a join link.  On the code, the authorization test of
`handle_ping` (line 292) reads the nonexistent attribute `self.in_groups`
(the method is named `in_group`), so for an existing group the handler
raises `AttributeError` before the membership/public/moderator disjunction
is ever computed: the non-member requester `alice` gets no error reply and
no join link, the comment handler simply crashes. -/
theorem c1_unauthorized_ping_raises_attribute_error :
    in_group "alice" ["bob"] = false ∧
    public_group "TEST" [] = false ∧
    handle_ping_resolve [("TEST", ["bob"])] ["TEST"] = Except.error PyErr.attributeError := by
  decide

/-- C2: the claim states that trigger parsing truncates the collected
tokens to the first 3, so that the example comment parses to exactly
`["FOO", "BAR", "BAZ"]`.  On the code, the collection loop of
`handle_comment` (lines 233-241) gathers all four tokens with no
truncation, and the subsequent capping/validation loop (line 253) raises
`NameError` because `MAX_PINGS_PER_COMMENT` is referenced without `self.`
— contradicting the source's own comments that the first
`MAX_PINGS_PER_COMMENT` group names are passed on. -/
theorem c2_trigger_parsing_no_truncation_then_nameerror :
    commentTokens "hello !ping FOO+BAR world !ping BAZ+QUX" = ["FOO", "BAR", "BAZ", "QUX"] ∧
    commentTokens "hello !ping FOO+BAR world !ping BAZ+QUX" ≠ ["FOO", "BAR", "BAZ"] ∧
    handle_comment "hello !ping FOO+BAR world !ping BAZ+QUX" = Except.error PyErr.nameError := by
  decide

/-- C3: the dedup cache (`self.parsed`, a deque with `maxlen=10000`,
appended to once per examined comment) never holds more than 10000
identifiers; inserting 10001 distinct identifiers into an empty cache
leaves exactly the last 10000 in insertion order (the cache equals
`ids.drop 1`), so the first-inserted identifier is absent, every one of
the last 10000 is present, and eviction follows insertion (FIFO) order. -/
theorem c3_dedup_cache_bound_and_fifo :
    (∀ (α : Type) (q ids : List α), q.length ≤ PARSED_MAXLEN →
        (List.foldl (dequeAppend PARSED_MAXLEN) q ids).length ≤ PARSED_MAXLEN)
    ∧ (∀ (α : Type) (ids : List α), ids.length = 10001 → ids.Nodup →
        List.foldl (dequeAppend PARSED_MAXLEN) [] ids = ids.drop 1
        ∧ (∀ x ∈ ids.drop 1, x ∈ List.foldl (dequeAppend PARSED_MAXLEN) [] ids)
        ∧ ∀ h, ids.head? = some h → h ∉ List.foldl (dequeAppend PARSED_MAXLEN) [] ids) := by
  have hcap : 1 ≤ PARSED_MAXLEN := by decide
  constructor
  · intro α q ids hq
    rw [foldl_dequeAppend_eq_drop PARSED_MAXLEN hcap ids q hq]
    simp only [List.length_drop, List.length_append]
    omega
  · intro α ids hlen hnodup
    have hdrop : List.foldl (dequeAppend PARSED_MAXLEN) [] ids = ids.drop 1 := by
      rw [foldl_dequeAppend_eq_drop PARSED_MAXLEN hcap ids [] (by simp)]
      simp [hlen, PARSED_MAXLEN]
    refine ⟨hdrop, ?_, ?_⟩
    · intro x hx; rw [hdrop]; exact hx
    · intro h hh
      rw [hdrop]
      cases ids with
      | nil => simp at hlen
      | cons a t =>
          simp only [List.head?_cons, Option.some.injEq] at hh
          subst hh
          simp only [List.drop_succ_cons, List.drop_zero]
          exact (List.nodup_cons.mp hnodup).1

/-- Witness for C3 at a concrete input: 10001 distinct identifiers. -/
theorem c3_dedup_cache_bound_and_fifo_witness :
    (List.range 10001).length = 10001 ∧
    List.foldl (dequeAppend PARSED_MAXLEN) [] (List.range 10001) = (List.range 10001).drop 1 ∧
    (0 : Nat) ∉ List.foldl (dequeAppend PARSED_MAXLEN) [] (List.range 10001) := by
  have h := c3_dedup_cache_bound_and_fifo.2 Nat (List.range 10001)
    (by simp) (List.nodup_range _)
  have h0 : (List.range 10001).head? = some 0 := by
    rw [List.range_succ_eq_map]; rfl
  exact ⟨by simp, h.1, h.2.2 0 h0⟩

/-- C4: the claim states that per-recipient delivery failures are caught
without aborting the loop and that the registry is cleaned up only when
the failure cause indicates a deleted/invalid account.  On the code, the
cleanup condition of the `except` handler (line 377),
`"USER_DOESNT_EXIST" or "INVALID_USER" in error_types`, is the disjunction
of a truthy nonempty string literal with the membership test, so it is
true for every `APIException` regardless of its error types — contradicting
the source's own comment "Check if account is deleted/suspended/misspelled,
remove if so". -/
theorem c4_cleanup_condition_ignores_error_types :
    (∀ error_types : List String, shouldRemoveUser error_types = true) ∧
    shouldRemoveUser ["RATELIMIT"] = true := by
  exact ⟨fun _ => rfl, rfl⟩

/-- C5: a single-group `addtogroup` request for an existing group: if the
group is protected, no wiki write happens and the registry is unchanged;
if it is unprotected, exactly one wiki write happens, carrying the
member-addition and the revision reason `Added /u/AUTHOR to Group NAME`,
which names the acting identity and the group. -/
theorem c5_addtogroup_protection (body author : String) (registry : Registry)
    (protectedOpts : List String)
    (hsplit : splitGroupsArg body = [body])
    (hexists : group_exists body registry = true) :
    (protected_group body protectedOpts = true →
      (add_to_group body author registry protectedOpts).writes = []
      ∧ (add_to_group body author registry protectedOpts).registry = registry)
    ∧ (protected_group body protectedOpts = false →
      (add_to_group body author registry protectedOpts).writes =
        [(configSet registry (pyUpper body) author,
          "Added /u/" ++ author ++ " to Group " ++ revisionReason (pyUpper body))]
      ∧ (add_to_group body author registry protectedOpts).registry =
          configSet registry (pyUpper body) author) := by
  constructor
  · intro hp
    constructor <;> simp [add_to_group, hsplit, hexists, hp]
  · intro hp
    constructor <;> simp [add_to_group, hsplit, hexists, hp]

/-- Witness for C5 at a concrete input: requester `alice` self-joins the
existing unprotected group `DAD`. -/
theorem c5_addtogroup_protection_witness :
    splitGroupsArg "dad" = ["dad"] ∧
    (add_to_group "dad" "alice" [("DAD", ["bob"])] []).writes =
      [(configSet [("DAD", ["bob"])] (pyUpper "dad") "alice",
        "Added /u/" ++ "alice" ++ " to Group " ++ revisionReason (pyUpper "dad"))] := by
  refine ⟨by decide, ?_⟩
  exact ((c5_addtogroup_protection "dad" "alice" [("DAD", ["bob"])] []
    (by decide) (by decide)).2 (by decide)).1

/-- C6 counterexample: the claim states that every inbound command message
resolves to a private reply or handler execution, never an uncaught
process-level failure.  But the tier gate in `handle_command` uses the
config wiki sections `commands`/`mod_commands`, while `run_command` then
indexes the *hardcoded* handler dictionaries: a command name listed in the
config but absent from the dictionaries (here `"foo"`) passes the gate and
raises an uncaught `KeyError` at `public_commands[command]`. -/
theorem c6_config_listed_unimplemented_command_raises_keyerror :
    handle_command ["foo"] [] false "foo bar" = Except.error PyErr.keyError := by
  decide

/-- C6 amended: provided the message has a first word, every name in the
config's public tier is a key of the hardcoded public handler table, and
every name in the config's moderator tier is a key of the combined
hardcoded tables, dispatch never raises: a name absent from both tiers
gets an "invalid command" reply; a name present in the moderator tier
(even if also public) sent by a non-moderator gets a "mod-only" reply with
no execution; otherwise the handler executes with the trailing text. -/
theorem c6_command_dispatch_amended (publicTier modTier : List String)
    (isMod : Bool) (body command : String) (rest : List String)
    (hwords : pySplit (pyLower body) = command :: rest)
    (hpub : ∀ c ∈ publicTier, c ∈ publicCommandKeys)
    (hmod : ∀ c ∈ modTier, c ∈ publicCommandKeys ++ modCommandKeys) :
    ∃ outcome, handle_command publicTier modTier isMod body = Except.ok outcome ∧
      ((command ∉ publicTier ++ modTier ∧ outcome = DispatchOutcome.invalidReply command)
       ∨ (command ∈ modTier ∧ isMod = false ∧ outcome = DispatchOutcome.modOnlyReply command)
       ∨ (command ∈ publicTier ++ modTier ∧ (isMod = true ∨ command ∉ modTier)
          ∧ outcome = DispatchOutcome.exec command (String.intercalate " " rest))) := by
  unfold handle_command
  rw [hwords]
  by_cases h1 : command ∈ publicTier ++ modTier
  · have h1or : command ∈ publicTier ∨ command ∈ modTier := List.mem_append.mp h1
    by_cases h2 : command ∈ modTier
    · cases isMod with
      | false =>
          refine ⟨DispatchOutcome.modOnlyReply command, ?_, Or.inr (Or.inl ⟨h2, rfl, rfl⟩)⟩
          simp [h1or, h2]
      | true =>
          have h3 : command ∈ publicCommandKeys ∨ command ∈ modCommandKeys :=
            List.mem_append.mp (hmod command h2)
          refine ⟨DispatchOutcome.exec command (String.intercalate " " rest), ?_,
            Or.inr (Or.inr ⟨h1, Or.inl rfl, rfl⟩)⟩
          simp [h1or, h2, h3]
    · have hpubmem : command ∈ publicTier := by
        rcases h1or with h | h
        · exact h
        · exact absurd h h2
      have h4 : command ∈ publicCommandKeys := hpub command hpubmem
      cases isMod with
      | false =>
          refine ⟨DispatchOutcome.exec command (String.intercalate " " rest), ?_,
            Or.inr (Or.inr ⟨h1, Or.inr h2, rfl⟩)⟩
          simp [hpubmem, h2, h4]
      | true =>
          have h5 : command ∈ publicCommandKeys ∨ command ∈ modCommandKeys := Or.inl h4
          refine ⟨DispatchOutcome.exec command (String.intercalate " " rest), ?_,
            Or.inr (Or.inr ⟨h1, Or.inl rfl, rfl⟩)⟩
          simp [hpubmem, h2, h5]
  · have h1or : ¬ (command ∈ publicTier ∨ command ∈ modTier) := fun hc =>
      h1 (List.mem_append.mpr hc)
    refine ⟨DispatchOutcome.invalidReply command, ?_, Or.inl ⟨h1, rfl⟩⟩
    simp [h1or]

/-- Witness for C6 amended at a concrete input: non-moderator sends
`addtogroup dad` with tiers matching the hardcoded tables. -/
theorem c6_command_dispatch_amended_witness :
    pySplit (pyLower "addtogroup dad") = "addtogroup" :: ["dad"] ∧
    ∃ outcome,
      handle_command ["addtogroup", "unsubscribe"] ["list"] false "addtogroup dad" =
        Except.ok outcome ∧
      (("addtogroup" ∉ ["addtogroup", "unsubscribe"] ++ ["list"]
          ∧ outcome = DispatchOutcome.invalidReply "addtogroup")
       ∨ ("addtogroup" ∈ ["list"] ∧ false = false
          ∧ outcome = DispatchOutcome.modOnlyReply "addtogroup")
       ∨ ("addtogroup" ∈ ["addtogroup", "unsubscribe"] ++ ["list"]
          ∧ (false = true ∨ "addtogroup" ∉ ["list"])
          ∧ outcome = DispatchOutcome.exec "addtogroup" (String.intercalate " " ["dad"]))) := by
  refine ⟨by decide, ?_⟩
  exact c6_command_dispatch_amended ["addtogroup", "unsubscribe"] ["list"] false
    "addtogroup dad" "addtogroup" ["dad"] (by decide) (by decide) (by decide)

/-- C7: the claim states that the aggregate recipient set equals the
case-insensitively deduplicated union of the member lists of the
authorized groups.  On the code, the classification loop of `handle_ping`
raises `AttributeError` at the first existing group (the `self.in_groups`
call site, line 292), so even a member requesting existing groups never
yields a recipient set — the handler crashes before `users` is aggregated
(and the later dedup step `list(set(users))` at line 309 would be
case-sensitive besides). -/
theorem c7_recipient_union_never_constructed :
    in_group "bob" ["bob"] = true ∧
    handle_ping_resolve [("TEST", ["bob"]), ("OTHER", ["bob", "Carol"])] ["TEST", "OTHER"] =
      Except.error PyErr.attributeError := by
  decide

/-- C8: `_validate_group_name` accepts exactly the strings every character
of which is an ASCII uppercase letter, digit, `-`, or `+`; on any other
string it fails with the message naming the offending group name and the
allowed character set.  The function is pure (a Lean function of its
argument). -/
theorem c8_validate_group_name_characterization (s : String) :
    ((∀ c ∈ s.toList, c ∈ GROUP_ALLOWED_CHARS.toList) →
      validate_group_name s = (true, none))
    ∧ ((∃ c ∈ s.toList, c ∉ GROUP_ALLOWED_CHARS.toList) →
      validate_group_name s =
        (false, some ("Group name " ++ s ++ " must only use " ++ GROUP_ALLOWED_CHARS))) := by
  constructor
  · intro hall
    have h : s.toList.any (fun c => !(GROUP_ALLOWED_CHARS.toList.contains c)) = false := by
      rw [List.any_eq_false]
      intro c hc
      have hmem : GROUP_ALLOWED_CHARS.toList.contains c = true :=
        (contains_iff_mem _ _).mpr (hall c hc)
      rw [hmem]
      decide
    unfold validate_group_name
    rw [h]
    simp
  · rintro ⟨c, hc, hnc⟩
    have h : s.toList.any (fun c => !(GROUP_ALLOWED_CHARS.toList.contains c)) = true := by
      rw [List.any_eq_true]
      refine ⟨c, hc, ?_⟩
      have hmem : GROUP_ALLOWED_CHARS.toList.contains c = false :=
        contains_eq_false_of_not_mem hnc
      rw [hmem]
      decide
    unfold validate_group_name
    rw [h]
    simp

set_option maxRecDepth 4096 in
/-- Witness for C8 at concrete inputs: `AB-1+` is accepted, `a!` is
rejected with the message naming the group and the allowed set. -/
theorem c8_validate_group_name_witness :
    validate_group_name "AB-1+" = (true, none) ∧
    validate_group_name "a!" =
      (false, some ("Group name " ++ "a!" ++ " must only use " ++ GROUP_ALLOWED_CHARS)) := by
  exact ⟨(c8_validate_group_name_characterization "AB-1+").1 (by decide),
         (c8_validate_group_name_characterization "a!").2 (by decide)⟩

/-- C9 counterexample: the claim states that an absent *or corrupt*
persisted dedup file yields an empty cache without a fatal error.  `load`
only catches `FileNotFoundError` and `EOFError`; on a corrupt (nonempty,
unparseable) file, `pickle.loads` raises `pickle.UnpicklingError`, which
propagates to the caller instead of yielding an empty cache. -/
theorem c9_corrupt_pickle_raises :
    load PickleFile.corrupt = Except.error PyErr.unpicklingError := by
  decide

/-- C9 amended: an absent or *empty* persisted dedup file yields an empty
cache (with `maxlen` 10000) and no error; a corrupt nonempty file instead
raises the unpickling error to the caller. -/
theorem c9_absent_or_empty_file_yields_empty_cache :
    load PickleFile.absent = Except.ok ([], 10000)
    ∧ load PickleFile.emptyFile = Except.ok ([], 10000) := by
  decide

/-- C10: `_send_pm` truncates the subject and the `"\n\n"`-joined body to
their first 240 characters before sending, and a `RedditAPIException`
raised by the send is caught and logged (the function returns normally
with `delivered := false`), never propagated to the caller. -/
theorem c10_send_pm_truncates_and_catches_api_exception :
    ∀ (subject : String) (body : List String),
      send_pm subject body SendRaise.noRaise =
        Except.ok { subject := subject.take 240
                    message := (String.intercalate "\n\n" body).take 240
                    delivered := true }
      ∧ send_pm subject body SendRaise.redditAPI =
        Except.ok { subject := subject.take 240
                    message := (String.intercalate "\n\n" body).take 240
                    delivered := false } := by
  intro subject body
  constructor
  · simp [send_pm]
  · simp [send_pm]

end UserPinger
